import Mathlib

/-!
Verification of the recommendation core of the melbourne_food_site package
(feature extraction, similarity engine, scoring and ranking), as a shallow
embedding.  Python floats are modelled by `ℚ` where the code only adds,
multiplies and compares (scoring/ranking), and by `ℝ` where square roots and
logarithms occur (TF-IDF / cosine similarity / standardization).
-/

set_option maxHeartbeats 1000000

namespace MelbourneFood

/-! ### Data model (`models/restaurant.py`) -/

/-- `CuisineType(str, Enum)`, in declaration order. -/
inductive CuisineType where
  | italian | chinese | japanese | thai | vietnamese | indian | greek
  | mexican | australian | french | middle_eastern | korean | pizza
  | burgers | cafe | bakery | seafood | vegetarian | vegan
deriving DecidableEq, Repr

/-- The `.value` string of a `CuisineType` member. -/
def cuisineValue : CuisineType → String
  | .italian => "Italian" | .chinese => "Chinese" | .japanese => "Japanese"
  | .thai => "Thai" | .vietnamese => "Vietnamese" | .indian => "Indian"
  | .greek => "Greek" | .mexican => "Mexican" | .australian => "Australian"
  | .french => "French" | .middle_eastern => "Middle Eastern" | .korean => "Korean"
  | .pizza => "Pizza" | .burgers => "Burgers" | .cafe => "Cafe"
  | .bakery => "Bakery" | .seafood => "Seafood" | .vegetarian => "Vegetarian"
  | .vegan => "Vegan"

/-- `PriceRange(str, Enum)`: `$`, `$$`, `$$$`, `$$$$`. -/
inductive PriceRange where
  | cheap | moderate | expensive | very_expensive
deriving DecidableEq, Repr

/-- `Restaurant(BaseModel)`; only the attributes the recommendation core
reads are retained. -/
structure Restaurant where
  id : Int
  name : String
  cuisine_type : CuisineType
  price_range : PriceRange
  rating : ℚ
  suburb : String
  description : String
  latitude : Option ℚ
  longitude : Option ℚ
  has_delivery : Bool
  has_takeaway : Bool
  has_outdoor_seating : Bool
  is_wheelchair_accessible : Bool
  accepts_reservations : Bool
  has_lunch_specials : Bool
  has_happy_hour : Bool
  student_discount : Bool
deriving DecidableEq, Repr

/-- `PromoOffer(BaseModel)`; only the attributes the core reads. -/
structure PromoOffer where
  id : Int
  restaurant_id : Int
  title : String
  is_active : Bool
deriving DecidableEq, Repr

/-- `RestaurantResponse(BaseModel)`: an item of the detailed catalog, as
produced by `RestaurantService.get_restaurants_with_details` (an external
collaborator for the core): active restaurants with their currently active
promos and the optional externally computed distance. -/
structure RestaurantResponse where
  restaurant : Restaurant
  current_promos : List PromoOffer
  average_rating : ℚ
  review_count : Int
  distance_km : Option ℚ
  is_currently_open : Bool
deriving DecidableEq, Repr

/-! ### Stable descending sort

Python's `list.sort(key=f, reverse=True)` / `sorted(..., reverse=True)` is a
stable sort placing larger keys first.  `sortByDesc` is an extensional model:
an element is inserted before the first element whose key is `≤` its own, so
on equal keys the element that came earlier in the input stays earlier. -/

/-- One stable insertion step of the descending sort by key `f`. -/
def insortBy [LinearOrder β] (f : α → β) (x : α) : List α → List α
  | [] => [x]
  | y :: ys => if f y ≤ f x then x :: y :: ys else y :: insortBy f x ys

/-- Stable descending sort by key `f` (insertion sort). -/
def sortByDesc [LinearOrder β] (f : α → β) : List α → List α
  | [] => []
  | x :: xs => insortBy f x (sortByDesc f xs)

/-! ### Scoring operations (`services/recommendation_service.py`)

Each operation takes the detailed catalog (the value of
`get_restaurants_with_details(...)` at the caller's location) as an explicit
argument. -/

/-- The score accumulated by the loop body of
`get_personalized_recommendations` for one restaurant. -/
def personalizedScore (rr : RestaurantResponse) (preferred_cuisines : List CuisineType)
    (preferred_price_range : List PriceRange) (max_distance_km : ℚ) : ℚ :=
  (if rr.restaurant.cuisine_type ∈ preferred_cuisines then 0.4 else 0)
    + (if rr.restaurant.price_range ∈ preferred_price_range then 0.2 else 0)
    + rr.restaurant.rating / 5 * 0.2
    + (match rr.distance_km with
       | some d =>
         if d ≤ max_distance_km then max 0 (1 - d / max_distance_km) * 0.1 else 0
       | none => 0.05)
    + (if rr.current_promos = [] then 0 else 0.1)

/-- `get_personalized_recommendations`: score every restaurant, stable-sort
the `(restaurant, score)` pairs by descending score, return the first
`num_recommendations` restaurants. -/
def get_personalized_recommendations (all_restaurants : List RestaurantResponse)
    (preferred_cuisines : List CuisineType) (preferred_price_range : List PriceRange)
    (max_distance_km : ℚ) (num_recommendations : ℕ) : List RestaurantResponse :=
  let scored_restaurants := all_restaurants.map fun rr =>
    (rr, personalizedScore rr preferred_cuisines preferred_price_range max_distance_km)
  ((sortByDesc Prod.snd scored_restaurants).take num_recommendations).map Prod.fst

/-- `list(CuisineType)`: every cuisine, in declaration order. -/
def allCuisines : List CuisineType :=
  [.italian, .chinese, .japanese, .thai, .vietnamese, .indian, .greek,
   .mexican, .australian, .french, .middle_eastern, .korean, .pizza,
   .burgers, .cafe, .bakery, .seafood, .vegetarian, .vegan]

/-- `list(PriceRange)`: every price tier, in declaration order. -/
def allPriceRanges : List PriceRange := [.cheap, .moderate, .expensive, .very_expensive]

/-- `get_budget_friendly_recommendations`: delegates to the personalized
scoring with every cuisine and the budget tiers; `max_distance_km` is left at
its Python default `10.0`. -/
def get_budget_friendly_recommendations (all_restaurants : List RestaurantResponse)
    (max_price : PriceRange) (num_recommendations : ℕ) : List RestaurantResponse :=
  let budget_ranges :=
    if max_price ∈ [PriceRange.moderate, PriceRange.expensive, PriceRange.very_expensive]
    then [PriceRange.cheap, PriceRange.moderate] else [PriceRange.cheap]
  get_personalized_recommendations all_restaurants allCuisines budget_ranges 10
    num_recommendations

/-- The score accumulated by the loop body of `get_trending_restaurants`. -/
def trendingScore (rr : RestaurantResponse) : ℚ :=
  rr.restaurant.rating
    + (if rr.current_promos = [] then 0 else 0.5)
    + (if rr.restaurant.student_discount then 0.3 else 0)
    + (if rr.restaurant.has_lunch_specials then 0.2 else 0)

/-- `get_trending_restaurants`. -/
def get_trending_restaurants (all_restaurants : List RestaurantResponse)
    (num_recommendations : ℕ) : List RestaurantResponse :=
  let scored_restaurants := all_restaurants.map fun rr => (rr, trendingScore rr)
  ((sortByDesc Prod.snd scored_restaurants).take num_recommendations).map Prod.fst

/-- `get_cuisine_recommendations`: personalized scoring with a single cuisine
and every price tier (`max_distance_km` at its Python default `10.0`). -/
def get_cuisine_recommendations (all_restaurants : List RestaurantResponse)
    (cuisine_type : CuisineType) (num_recommendations : ℕ) : List RestaurantResponse :=
  get_personalized_recommendations all_restaurants [cuisine_type] allPriceRanges 10
    num_recommendations

/-- The `is_lunch_friendly` check of `get_quick_lunch_recommendations`. -/
def is_lunch_friendly (r : Restaurant) : Bool :=
  r.has_takeaway || r.has_lunch_specials
    || decide (r.price_range ∈ [PriceRange.cheap, PriceRange.moderate])

/-- `get_quick_lunch_recommendations`: the loop keeps a restaurant iff
(distance known ∧ distance ≤ max ∧ lunch-friendly) ∨ (distance unknown ∧
lunch-friendly); the kept restaurants are sorted by descending rating and the
result is `[:8]`. -/
def get_quick_lunch_recommendations (all_restaurants : List RestaurantResponse)
    (max_distance_km : ℚ) : List RestaurantResponse :=
  let lunch_restaurants := all_restaurants.filter fun rr =>
    match rr.distance_km with
    | some d => decide (d ≤ max_distance_km) && is_lunch_friendly rr.restaurant
    | none => is_lunch_friendly rr.restaurant
  (sortByDesc (fun rr => rr.restaurant.rating) lunch_restaurants).take 8

/-! ### Student-friendly composite (`api/recommendations.py`) -/

/-- The student-priority filter of `get_student_friendly_recommendations`. -/
def studentQualifies (r : Restaurant) : Bool :=
  r.student_discount || decide (r.price_range = PriceRange.cheap) || r.has_lunch_specials

/-- The backfill loop of `get_student_friendly_recommendations`: walk the
budget list, skip ids already emitted, append until `remaining_spots` reach 0
or the list is exhausted. -/
def backfillStudents (existing_ids : List Int) (remaining_spots : ℕ) :
    List RestaurantResponse → List RestaurantResponse
  | [] => []
  | rr :: rest =>
    if existing_ids.contains rr.restaurant.id then
      backfillStudents existing_ids remaining_spots rest
    else if remaining_spots ≤ 1 then [rr]
    else rr :: backfillStudents existing_ids (remaining_spots - 1) rest

/-- `get_student_friendly_recommendations`: qualifying items from the
10-element budget list first, then (when fewer than 8) backfill from the rest
of the budget list; final `[:8]`. -/
def get_student_friendly_recommendations (all_restaurants : List RestaurantResponse) :
    List RestaurantResponse :=
  let budget_restaurants :=
    get_budget_friendly_recommendations all_restaurants PriceRange.moderate 10
  let student_friendly := budget_restaurants.filter fun rr => studentQualifies rr.restaurant
  let final :=
    if student_friendly.length < 8 then
      student_friendly
        ++ backfillStudents (student_friendly.map fun rr => rr.restaurant.id)
            (8 - student_friendly.length) budget_restaurants
    else student_friendly
  final.take 8

/-! ### Similarity engine (`_calculate_similarity_matrix` and helpers)

The text pipeline is `TfidfVectorizer(stop_words='english')` with its default
settings (lowercasing, token pattern `\w\w+`, smoothed idf
`ln((1+n)/(1+df)) + 1`, l2 row normalization) followed by
`cosine_similarity`; the numeric pipeline is `StandardScaler` (population
standard deviation, zero scales replaced by 1) followed by
`cosine_similarity`.  `cosine_similarity` l2-normalizes its rows, keeping
zero rows as zero rows, and takes pairwise dot products. -/

/-- Dot product of two real vectors. -/
def dotList : List ℝ → List ℝ → ℝ
  | x :: xs, y :: ys => x * y + dotList xs ys
  | _, _ => 0

/-- sklearn row normalization: divide a row by its l2 norm; rows of zero norm
are kept unchanged. -/
noncomputable def l2normalize (v : List ℝ) : List ℝ :=
  if Real.sqrt (dotList v v) = 0 then v
  else v.map fun x => x / Real.sqrt (dotList v v)

/-- `cosine_similarity(rows)[i][j]`. -/
noncomputable def cosineSimilarity (rows : List (List ℝ)) (i j : ℕ) : ℝ :=
  dotList (l2normalize (rows.getD i [])) (l2normalize (rows.getD j []))

/-- A `\w` word character of the default token pattern. -/
def isWordChar (c : Char) : Bool := c.isAlphanum || c == '_'

/-- Splits a character list into its maximal runs of word characters:
the pair is (run in progress at the left end, completed runs). -/
def splitRunsAux : List Char → List Char × List (List Char)
  | [] => ([], [])
  | c :: cs =>
    let p := splitRunsAux cs
    if isWordChar c then (c :: p.1, p.2) else ([], p.1 :: p.2)

/-- All maximal runs of word characters, left to right (empty runs
included; they are dropped by the length filter of `tokenize`). -/
def splitRuns (cs : List Char) : List (List Char) :=
  (splitRunsAux cs).1 :: (splitRunsAux cs).2

/-- sklearn's built-in English stop-word list. -/
def englishStopWords : List String :=
  ["a", "about", "above", "across", "after", "afterwards", "again", "against",
   "all", "almost", "alone", "along", "already", "also", "although", "always",
   "am", "among", "amongst", "amoungst", "amount", "an", "and", "another",
   "any", "anyhow", "anyone", "anything", "anyway", "anywhere", "are",
   "around", "as", "at", "back", "be", "became", "because", "become",
   "becomes", "becoming", "been", "before", "beforehand", "behind", "being",
   "below", "beside", "besides", "between", "beyond", "bill", "both",
   "bottom", "but", "by", "call", "can", "cannot", "cant", "co", "con",
   "could", "couldnt", "cry", "de", "describe", "detail", "do", "done",
   "down", "due", "during", "each", "eg", "eight", "either", "eleven",
   "else", "elsewhere", "empty", "enough", "etc", "even", "ever", "every",
   "everyone", "everything", "everywhere", "except", "few", "fifteen",
   "fifty", "fill", "find", "fire", "first", "five", "for", "former",
   "formerly", "forty", "found", "four", "from", "front", "full", "further",
   "get", "give", "go", "had", "has", "hasnt", "have", "he", "hence", "her",
   "here", "hereafter", "hereby", "herein", "hereupon", "hers", "herself",
   "him", "himself", "his", "how", "however", "hundred", "i", "ie", "if",
   "in", "inc", "indeed", "interest", "into", "is", "it", "its", "itself",
   "keep", "last", "latter", "latterly", "least", "less", "ltd", "made",
   "many", "may", "me", "meanwhile", "might", "mill", "mine", "more",
   "moreover", "most", "mostly", "move", "much", "must", "my", "myself",
   "name", "namely", "neither", "never", "nevertheless", "next", "nine",
   "no", "nobody", "none", "noone", "nor", "not", "nothing", "now",
   "nowhere", "of", "off", "often", "on", "once", "one", "only", "onto",
   "or", "other", "others", "otherwise", "our", "ours", "ourselves", "out",
   "over", "own", "part", "per", "perhaps", "please", "put", "rather", "re",
   "same", "see", "seem", "seemed", "seeming", "seems", "serious", "several",
   "she", "should", "show", "side", "since", "sincere", "six", "sixty", "so",
   "some", "somehow", "someone", "something", "sometime", "sometimes",
   "somewhere", "still", "such", "system", "take", "ten", "than", "that",
   "the", "their", "them", "themselves", "then", "thence", "there",
   "thereafter", "thereby", "therefore", "therein", "thereupon", "these",
   "they", "thick", "thin", "third", "this", "those", "though", "three",
   "through", "throughout", "thru", "thus", "to", "together", "too", "top",
   "toward", "towards", "twelve", "twenty", "two", "un", "under", "until",
   "up", "upon", "us", "very", "via", "was", "we", "well", "were", "what",
   "whatever", "when", "whence", "whenever", "where", "whereafter",
   "whereas", "whereby", "wherein", "whereupon", "wherever", "whether",
   "which", "while", "whither", "who", "whoever", "whole", "whom", "whose",
   "why", "will", "with", "within", "without", "would", "yet", "you",
   "your", "yours", "yourself", "yourselves"]

/-- `TfidfVectorizer(stop_words='english')` tokenization: lowercase, maximal
runs of at least two word characters, stop words removed. -/
def tokenize (s : String) : List String :=
  (((splitRuns (s.toList.map Char.toLower)).filter fun t => 2 ≤ t.length).map
      fun cs => String.mk cs).filter fun t => !(englishStopWords.contains t)

/-- The corpus vocabulary: the distinct tokens.  (sklearn also sorts the
vocabulary alphabetically; the column order affects no dot product, so
first-occurrence order is kept here.) -/
def vocabulary (docs : List (List String)) : List String := docs.flatten.dedup

/-- Smoothed inverse document frequency, as sklearn computes it:
`ln((1+n)/(1+df)) + 1`. -/
noncomputable def idf (docs : List (List String)) (t : String) : ℝ :=
  Real.log ((1 + (docs.length : ℝ)) /
    (1 + ((docs.filter fun d => d.contains t).length : ℝ))) + 1

/-- One l2-normalized tf-idf row (term frequency = raw count). -/
noncomputable def tfidfRow (docs : List (List String)) (d : List String) : List ℝ :=
  l2normalize ((vocabulary docs).map fun t => ((d.count t : ℝ) * idf docs t))

/-- `text_features = f"{cuisine_type.value} {description} {suburb}"` from
`_create_restaurant_dataframe`. -/
def text_features (r : Restaurant) : String :=
  cuisineValue r.cuisine_type ++ " " ++ r.description ++ " " ++ r.suburb

/-- `price_numeric`: `{"$": 1, "$$": 2, "$$$": 3, "$$$$": 4}`. -/
def price_numeric : PriceRange → ℚ
  | .cheap => 1 | .moderate => 2 | .expensive => 3 | .very_expensive => 4

/-- The fixed-order numeric feature columns selected by
`_calculate_similarity_matrix`: price tier, rating, then the eight amenity
flags cast to 0/1. -/
def numericFeatures (r : Restaurant) : List ℚ :=
  [price_numeric r.price_range, r.rating,
   if r.has_delivery then 1 else 0, if r.has_takeaway then 1 else 0,
   if r.has_outdoor_seating then 1 else 0,
   if r.is_wheelchair_accessible then 1 else 0,
   if r.accepts_reservations then 1 else 0,
   if r.has_lunch_specials then 1 else 0,
   if r.has_happy_hour then 1 else 0,
   if r.student_discount then 1 else 0]

/-- Arithmetic mean of a column. -/
noncomputable def listMean (xs : List ℝ) : ℝ := xs.sum / xs.length

/-- Population variance of a column (`StandardScaler` uses `ddof = 0`). -/
noncomputable def listVariance (xs : List ℝ) : ℝ :=
  ((xs.map fun x => (x - listMean xs) ^ 2).sum) / xs.length

/-- `StandardScaler` scale of a column: the population standard deviation,
with zero replaced by 1 (`_handle_zeros_in_scale`). -/
noncomputable def scaleOf (xs : List ℝ) : ℝ :=
  if Real.sqrt (listVariance xs) = 0 then 1 else Real.sqrt (listVariance xs)

/-- Column `j` of a row-major matrix. -/
def columnOf (rows : List (List ℝ)) (j : ℕ) : List ℝ := rows.map fun r => r.getD j 0

/-- `StandardScaler.fit_transform`: center and rescale every column. -/
noncomputable def standardScale (rows : List (List ℝ)) : List (List ℝ) :=
  rows.map fun r => (List.range r.length).map fun j =>
    (r.getD j 0 - listMean (columnOf rows j)) / scaleOf (columnOf rows j)

/-- The tf-idf rows of the restaurants' text features. -/
noncomputable def textRows (restaurants : List Restaurant) : List (List ℝ) :=
  let docs := restaurants.map fun r => tokenize (text_features r)
  docs.map fun d => tfidfRow docs d

/-- The standardized numeric feature rows of the restaurants. -/
noncomputable def numericRows (restaurants : List Restaurant) : List (List ℝ) :=
  standardScale (restaurants.map fun r => (numericFeatures r).map (Rat.cast : ℚ → ℝ))

/-- `_calculate_similarity_matrix`:
`0.6 * text_similarity + 0.4 * numerical_similarity`, entrywise. -/
noncomputable def calculate_similarity_matrix (restaurants : List Restaurant)
    (i j : ℕ) : ℝ :=
  0.6 * cosineSimilarity (textRows restaurants) i j
    + 0.4 * cosineSimilarity (numericRows restaurants) i j

/-! ### The similar-restaurants lookup (`get_similar_restaurants`) -/

/-- The uncaught Python exception relevant here. -/
inductive PyError where
  | attributeError
deriving DecidableEq, Repr

/-- `_setup_recommendation_engine`: on an empty catalog the method returns
early, leaving `self.restaurant_df` and `self.similarity_matrix` unassigned
(modelled as `none`). -/
def setup_recommendation_engine (catalog : List RestaurantResponse) :
    Option (List Restaurant) :=
  let restaurants := catalog.map fun rr => rr.restaurant
  if restaurants = [] then none else some restaurants

/-- A constructed `RecommendationService`: the catalog of the underlying
`RestaurantService` plus the optionally-assigned dataframe (the similarity
matrix is a pure function of it). -/
structure RecommendationServiceState where
  catalog : List RestaurantResponse
  restaurant_df : Option (List Restaurant)

/-- `RecommendationService.__init__`. -/
def mkRecommendationService (catalog : List RestaurantResponse) :
    RecommendationServiceState :=
  ⟨catalog, setup_recommendation_engine catalog⟩

/-- A placeholder restaurant for the (never reached) out-of-range `iloc`. -/
def dummyRestaurant : Restaurant :=
  ⟨0, "", .cafe, .cheap, 0, "", "", none, none,
   false, false, false, false, false, false, false, false⟩

/-- The body of `get_similar_restaurants` once `self.restaurant_df` was read
successfully: the `df.empty` guard returns `[]`; an unknown id raises
`IndexError` at `.index[0]`, which is caught and turned into `[]`; otherwise
the row of the similarity matrix is stable-sorted descending, sliced
`[1:num+1]` ("exclude self"), mapped to ids, and the ids are resolved
against the detailed catalog. -/
noncomputable def similar_from_df (catalog : List RestaurantResponse)
    (restaurants : List Restaurant) (restaurant_id : Int)
    (num_recommendations : ℕ) : List RestaurantResponse :=
  if restaurants = [] then [] else
  match restaurants.findIdx? (fun r => decide (r.id = restaurant_id)) with
  | none => []
  | some restaurant_idx =>
    let similarity_scores := (List.range restaurants.length).map fun j =>
      (j, calculate_similarity_matrix restaurants restaurant_idx j)
    let sorted_scores := sortByDesc Prod.snd similarity_scores
    let similar_restaurants := (sorted_scores.drop 1).take num_recommendations
    let similar_ids := similar_restaurants.map fun p =>
      (restaurants.getD p.1 dummyRestaurant).id
    similar_ids.filterMap fun i =>
      catalog.find? fun rr => decide (rr.restaurant.id = i)

/-- `get_similar_restaurants`: reading the never-assigned
`self.restaurant_df` of an empty-catalog service raises `AttributeError`;
otherwise the lookup never raises. -/
noncomputable def get_similar_restaurants (self : RecommendationServiceState)
    (restaurant_id : Int) (num_recommendations : ℕ) :
    Except PyError (List RestaurantResponse) :=
  match self.restaurant_df with
  | none => .error .attributeError
  | some restaurants =>
    .ok (similar_from_df self.catalog restaurants restaurant_id num_recommendations)

/-! ### Spec-side definitions

These restate, in the spec's own words, the quantities the claims compare
with the code; each is kept separate from the code-side definition above. -/

/-- C1, spec side: the Personalized score as the weighted sum the spec
tabulates. -/
def personalizedScoreSpec (rr : RestaurantResponse) (preferred_cuisines : List CuisineType)
    (preferred_price_range : List PriceRange) (max_distance_km : ℚ) : ℚ :=
  (if rr.restaurant.cuisine_type ∈ preferred_cuisines then 0.4 else 0)
    + (if rr.restaurant.price_range ∈ preferred_price_range then 0.2 else 0)
    + 0.2 * (rr.restaurant.rating / 5)
    + (match rr.distance_km with
       | some d =>
         if d ≤ max_distance_km then 0.1 * max 0 (1 - d / max_distance_km) else 0
       | none => 0.05)
    + (if rr.current_promos ≠ [] then 0.1 else 0)

/-- C2, spec side: the text feature of an item — category label, free-text
description and location label joined by whitespace. -/
def textFeatureSpec (r : Restaurant) : String :=
  cuisineValue r.cuisine_type ++ " " ++ r.description ++ " " ++ r.suburb

/-- C2, spec side: the numeric feature vector — price tier mapped to 1..4,
rating, and the eight boolean amenity flags as 0/1. -/
def numericFeatureSpec (r : Restaurant) : List ℚ :=
  [price_numeric r.price_range, r.rating,
   if r.has_delivery then 1 else 0, if r.has_takeaway then 1 else 0,
   if r.has_outdoor_seating then 1 else 0,
   if r.is_wheelchair_accessible then 1 else 0,
   if r.accepts_reservations then 1 else 0,
   if r.has_lunch_specials then 1 else 0,
   if r.has_happy_hour then 1 else 0,
   if r.student_discount then 1 else 0]

/-- C2, spec side: `T`, the pairwise cosine-similarity matrix of the TF-IDF
vectors of the items' text features. -/
noncomputable def Tmatrix (restaurants : List Restaurant) (i j : ℕ) : ℝ :=
  let docs := restaurants.map fun r => tokenize (textFeatureSpec r)
  cosineSimilarity (docs.map fun d => tfidfRow docs d) i j

/-- C2, spec side: `N`, the pairwise cosine-similarity matrix of the numeric
feature vectors after standardizing each column. -/
noncomputable def Nmatrix (restaurants : List Restaurant) (i j : ℕ) : ℝ :=
  cosineSimilarity
    (standardScale (restaurants.map fun r => (numericFeatureSpec r).map (Rat.cast : ℚ → ℝ)))
    i j

/-- C7, spec side: the quick-lunch eligibility filter as the claim words it:
(has takeaway OR has lunch specials OR cheapest two tiers) AND (distance
unknown OR distance ≤ max_distance). -/
def quickLunchEligible (max_distance_km : ℚ) (rr : RestaurantResponse) : Bool :=
  (rr.restaurant.has_takeaway || rr.restaurant.has_lunch_specials
      || decide (rr.restaurant.price_range ∈ [PriceRange.cheap, PriceRange.moderate]))
    && (match rr.distance_km with
        | none => true
        | some d => decide (d ≤ max_distance_km))

/-- C9, spec side: the preferred tiers derived from the caller's ceiling —
the cheapest tier alone when the ceiling is the cheapest tier, the cheapest
two tiers when it is the second tier or above. -/
def budgetTiersSpec : PriceRange → List PriceRange
  | .cheap => [.cheap]
  | _ => [.cheap, .moderate]

/-! ### Concrete inputs for counterexamples and witnesses -/

/-- The token list of the concrete restaurants below. -/
def dTok : List String := ["chinese", "tasty", "dumplings", "carlton"]

/-- A restaurant whose text features tokenize to
`["chinese", "tasty", "dumplings", "carlton"]` (no stop words). -/
def plainRestaurant (n : Int) (rating : ℚ) : Restaurant :=
  ⟨n, "Dumpling House", .chinese, .moderate, rating, "Carlton", "Tasty dumplings",
   none, none, false, false, false, false, false, false, false, false⟩

/-- Wraps a restaurant as its detailed catalog entry with no promos and no
distance information. -/
def plainResponse (r : Restaurant) : RestaurantResponse :=
  ⟨r, [], r.rating, 150, none, true⟩

/-- Two fully identical restaurants (only the ids differ). -/
def duplicateCatalog : List RestaurantResponse :=
  [plainResponse (plainRestaurant 1 4), plainResponse (plainRestaurant 2 4)]

/-- A single-item catalog. -/
def singleRestaurantList : List Restaurant := [plainRestaurant 1 4]

/-- Two restaurants with identical text features but different ratings. -/
def twoRatingsList : List Restaurant := [plainRestaurant 1 4, plainRestaurant 2 5]

/-- An all-eligible quick-lunch catalog entry. -/
def quickResponse (n : Int) : RestaurantResponse :=
  plainResponse { plainRestaurant n 4 with has_takeaway := true }

/-- Nine quick-lunch-eligible items. -/
def nineEligible : List RestaurantResponse :=
  ([1, 2, 3, 4, 5, 6, 7, 8, 9] : List Int).map quickResponse

/-! ## Lemmas and claim theorems -/

/-! ### Lemmas about the stable descending sort -/

theorem insortBy_perm [LinearOrder β] (f : α → β) (x : α) (l : List α) :
    List.Perm (insortBy f x l) (x :: l) := by
  induction l with
  | nil => rfl
  | cons y ys ih =>
    unfold insortBy
    by_cases h : f y ≤ f x
    · simp [h]
    · simp only [h, if_false]
      exact (ih.cons y).trans (List.Perm.swap x y ys)

theorem sortByDesc_perm [LinearOrder β] (f : α → β) (l : List α) :
    List.Perm (sortByDesc f l) l := by
  induction l with
  | nil => rfl
  | cons x xs ih => exact (insortBy_perm f x (sortByDesc f xs)).trans (ih.cons x)

theorem mem_sortByDesc [LinearOrder β] (f : α → β) (l : List α) (a : α) :
    a ∈ sortByDesc f l ↔ a ∈ l :=
  (sortByDesc_perm f l).mem_iff

theorem length_sortByDesc [LinearOrder β] (f : α → β) (l : List α) :
    (sortByDesc f l).length = l.length :=
  (sortByDesc_perm f l).length_eq

theorem chain'_insortBy [LinearOrder β] (f : α → β) (x : α) (l : List α)
    (h : l.Chain' (fun a b => f b ≤ f a)) :
    (insortBy f x l).Chain' (fun a b => f b ≤ f a) := by
  induction l with
  | nil => simp [insortBy]
  | cons y ys ih =>
    unfold insortBy
    by_cases hxy : f y ≤ f x
    · simp only [hxy, if_true]
      exact List.chain'_cons.2 ⟨hxy, h⟩
    · simp only [hxy, if_false]
      refine List.chain'_cons'.2 ⟨?_, ih h.tail⟩
      intro z hz
      cases ys with
      | nil =>
        simp only [insortBy, List.head?_cons, Option.mem_def, Option.some.injEq] at hz
        subst hz; exact le_of_not_le hxy
      | cons w ws =>
        unfold insortBy at hz
        by_cases hwx : f w ≤ f x
        · simp only [hwx, if_true, List.head?_cons, Option.mem_def, Option.some.injEq] at hz
          subst hz; exact le_of_not_le hxy
        · simp only [hwx, if_false, List.head?_cons, Option.mem_def, Option.some.injEq] at hz
          subst hz; exact (List.chain'_cons.1 h).1

theorem sortByDesc_chain' [LinearOrder β] (f : α → β) (l : List α) :
    (sortByDesc f l).Chain' (fun a b => f b ≤ f a) := by
  induction l with
  | nil => simp [sortByDesc]
  | cons x xs ih => exact chain'_insortBy f x (sortByDesc f xs) ih

theorem filter_insortBy_of_key_eq [LinearOrder β] (f : α → β) (x : α) (l : List α)
    (c : β) (hc : f x = c) :
    (insortBy f x l).filter (fun a => decide (f a = c)) =
      x :: l.filter (fun a => decide (f a = c)) := by
  subst hc
  induction l with
  | nil => simp [insortBy]
  | cons y ys ih =>
    unfold insortBy
    by_cases hxy : f y ≤ f x
    · by_cases hy : f y = f x <;> simp [hxy, List.filter_cons, hy]
    · have hy : ¬ f y = f x := fun hyc => hxy (le_of_eq hyc)
      simp [hxy, List.filter_cons, hy, ih]

theorem filter_insortBy_of_key_ne [LinearOrder β] (f : α → β) (x : α) (l : List α)
    (c : β) (hc : ¬ f x = c) :
    (insortBy f x l).filter (fun a => decide (f a = c)) =
      l.filter (fun a => decide (f a = c)) := by
  induction l with
  | nil => simp [insortBy, hc]
  | cons y ys ih =>
    unfold insortBy
    by_cases hxy : f y ≤ f x
    · simp only [hxy, if_true, List.filter_cons]
      by_cases hy : f y = c <;> simp [hy, hc]
    · simp only [hxy, if_false, List.filter_cons]
      by_cases hy : f y = c <;> simp [hy, ih]

/-- Stability of the descending sort: the elements whose key equals any given
value `c` appear in the output exactly in their input order. -/
theorem sortByDesc_filter_key [LinearOrder β] (f : α → β) (l : List α) (c : β) :
    (sortByDesc f l).filter (fun a => decide (f a = c)) =
      l.filter (fun a => decide (f a = c)) := by
  induction l with
  | nil => rfl
  | cons x xs ih =>
    unfold sortByDesc
    by_cases hx : f x = c
    · rw [filter_insortBy_of_key_eq f x _ c hx, ih, List.filter_cons, hx]
      simp
    · rw [filter_insortBy_of_key_ne f x _ c hx, ih, List.filter_cons]
      simp [hx]

theorem map_fst_insortBy [LinearOrder β] (f : α → β) (x : α) (l : List (α × β))
    (hl : ∀ p ∈ l, p.2 = f p.1) :
    (insortBy Prod.snd (x, f x) l).map Prod.fst = insortBy f x (l.map Prod.fst) := by
  induction l with
  | nil => rfl
  | cons y ys ih =>
    have hy : y.2 = f y.1 := hl y (List.mem_cons_self y ys)
    unfold insortBy
    simp only [List.map_cons, hy]
    by_cases h : f y.1 ≤ f x
    · simp [h]
    · simp only [h, if_false, List.map_cons, List.cons.injEq, true_and]
      exact ih fun p hp => hl p (List.mem_cons_of_mem y hp)

/-- Sorting `(a, f a)` pairs by the second component and projecting to the
first (how the Python code sorts scored tuples) is the stable descending sort
of the items by `f`. -/
theorem map_fst_sortByDesc [LinearOrder β] (f : α → β) (l : List α) :
    (sortByDesc Prod.snd (l.map fun a => (a, f a))).map Prod.fst = sortByDesc f l := by
  induction l with
  | nil => rfl
  | cons x xs ih =>
    unfold sortByDesc
    simp only [List.map_cons]
    rw [map_fst_insortBy f x _ ?_, ih]
    intro p hp
    have hmem : p ∈ xs.map fun a => (a, f a) :=
      ((sortByDesc_perm Prod.snd (xs.map fun a => (a, f a))).mem_iff).1 hp
    rcases List.mem_map.1 hmem with ⟨a, _, rfl⟩
    rfl

/-! ### The ranked lists as stable sorts of the catalog -/

theorem get_personalized_eq_sort (all_restaurants : List RestaurantResponse)
    (pc : List CuisineType) (pp : List PriceRange) (maxd : ℚ) (k : ℕ) :
    get_personalized_recommendations all_restaurants pc pp maxd k =
      (sortByDesc (fun rr => personalizedScore rr pc pp maxd) all_restaurants).take k := by
  unfold get_personalized_recommendations
  rw [← map_fst_sortByDesc (fun rr => personalizedScore rr pc pp maxd) all_restaurants,
    List.map_take]

theorem get_trending_eq_sort (all_restaurants : List RestaurantResponse) (k : ℕ) :
    get_trending_restaurants all_restaurants k =
      (sortByDesc trendingScore all_restaurants).take k := by
  unfold get_trending_restaurants
  rw [← map_fst_sortByDesc trendingScore all_restaurants, List.map_take]

/-! ### Claim C1 -/

/-- C1: for every catalog item and every recommendation context, the
personalized score that ranks the item is exactly the weighted sum the spec
tabulates: 0.4·[cuisine preferred] + 0.2·[tier preferred] + 0.2·(rating/5) +
(0.1·max(0, 1 − d/max) when the distance is known and ≤ max, 0 when known
and beyond max, flat 0.05 when unknown) + 0.1·[has an active promotion]. -/
theorem claim_C1_personalized_score (rr : RestaurantResponse)
    (pc : List CuisineType) (pp : List PriceRange) (maxd : ℚ) :
    personalizedScore rr pc pp maxd = personalizedScoreSpec rr pc pp maxd := by
  unfold personalizedScore personalizedScoreSpec
  rcases rr.distance_km with _ | d
  · by_cases h1 : rr.restaurant.cuisine_type ∈ pc <;>
      by_cases h2 : rr.restaurant.price_range ∈ pp <;>
        by_cases h3 : rr.current_promos = [] <;>
          simp [h1, h2, h3] <;> ring
  · by_cases h4 : d ≤ maxd <;>
      by_cases h1 : rr.restaurant.cuisine_type ∈ pc <;>
        by_cases h2 : rr.restaurant.price_range ∈ pp <;>
          by_cases h3 : rr.current_promos = [] <;>
            simp [h1, h2, h3, h4] <;> ring

/-! ### Claim C9 -/

/-- C9: budget_friendly(ceiling, location, k) is exactly the Personalized
operation with preferred categories = all categories and preferred tiers =
{cheapest} for the cheapest ceiling, {cheapest, second} for any higher
ceiling (the same catalog-with-distances input models the shared location
argument; `max_distance_km` keeps its default 10). -/
theorem claim_C9_budget_delegates (all_restaurants : List RestaurantResponse)
    (max_price : PriceRange) (k : ℕ) :
    get_budget_friendly_recommendations all_restaurants max_price k =
      get_personalized_recommendations all_restaurants allCuisines
        (budgetTiersSpec max_price) 10 k := by
  cases max_price <;> rfl

/-! ### Claim C5 -/

/-- C5: trending(k) returns the k highest items under the composite score
(rating + 0.5·promo + 0.3·student + 0.2·lunch): it is exactly the first `k`
items of the stable descending sort of the catalog by that score — so its
length is `min k` (catalog size), and it extends (by the dropped `rest`) to
a permutation of the catalog that is non-increasing in the composite score
on every adjacent pair and in which equal-score items appear exactly in
catalog order. -/
theorem claim_C5_trending (all_restaurants : List RestaurantResponse) (k : ℕ) :
    get_trending_restaurants all_restaurants k =
      (sortByDesc trendingScore all_restaurants).take k ∧
    (get_trending_restaurants all_restaurants k).length =
      min k all_restaurants.length ∧
    ∃ rest : List RestaurantResponse,
      List.Perm (get_trending_restaurants all_restaurants k ++ rest) all_restaurants ∧
      (get_trending_restaurants all_restaurants k ++ rest).Chain'
        (fun a b => trendingScore b ≤ trendingScore a) ∧
      ∀ c : ℚ,
        (get_trending_restaurants all_restaurants k ++ rest).filter
            (fun r => decide (trendingScore r = c)) =
          all_restaurants.filter (fun r => decide (trendingScore r = c)) := by
  refine ⟨get_trending_eq_sort all_restaurants k, ?_, ?_⟩
  · rw [get_trending_eq_sort, List.length_take, length_sortByDesc]
  refine ⟨(sortByDesc trendingScore all_restaurants).drop k, ?_, ?_, ?_⟩
  · rw [get_trending_eq_sort, List.take_append_drop]
    exact sortByDesc_perm _ _
  · rw [get_trending_eq_sort, List.take_append_drop]
    exact sortByDesc_chain' _ _
  · intro c
    rw [get_trending_eq_sort, List.take_append_drop]
    exact sortByDesc_filter_key _ _ c

/-! ### Claims C7 and C10 -/

/-- The quick-lunch loop, sort and slice, written as one expression: the
first 8 of the stable descending-rating sort of exactly the eligible
items. -/
theorem quick_lunch_eq_take_sort (all_restaurants : List RestaurantResponse)
    (maxd : ℚ) :
    get_quick_lunch_recommendations all_restaurants maxd =
      (sortByDesc (fun rr => rr.restaurant.rating)
        (all_restaurants.filter (quickLunchEligible maxd))).take 8 := by
  unfold get_quick_lunch_recommendations
  rw [List.filter_congr ?_]
  intro rr _
  unfold quickLunchEligible
  rcases rr.distance_km with _ | d
  · rw [Bool.and_true]
    rfl
  · rw [Bool.and_comm]
    rfl

/-- C7 as frozen is refuted by any catalog with nine eligible items: the
returned sequence has only 8 of the 9 eligible items, so it is not "exactly
the items satisfying" the filter. -/
theorem claim_C7_counterexample :
    (get_quick_lunch_recommendations nineEligible 2).length = 8 ∧
    (nineEligible.filter (quickLunchEligible 2)).length = 9 := by
  constructor <;> rfl

/-- C7 amended: quick_lunch returns the first 8 items of the stable
descending-rating ordering of exactly the items satisfying ((takeaway OR
lunch specials OR cheapest two tiers) AND (distance unknown OR distance ≤
max_distance)); in particular its output ratings are non-increasing. -/
theorem claim_C7_amended (all_restaurants : List RestaurantResponse) (maxd : ℚ) :
    get_quick_lunch_recommendations all_restaurants maxd =
      (sortByDesc (fun rr => rr.restaurant.rating)
        (all_restaurants.filter (quickLunchEligible maxd))).take 8 ∧
    (get_quick_lunch_recommendations all_restaurants maxd).Chain'
      (fun a b => b.restaurant.rating ≤ a.restaurant.rating) := by
  refine ⟨quick_lunch_eq_take_sort all_restaurants maxd, ?_⟩
  rw [quick_lunch_eq_take_sort]
  exact (sortByDesc_chain' _ _).take 8

/-- C10: quick_lunch returns at most 8 items — exactly the minimum of 8 and
the number of items passing the eligibility filter, even though the public
interface has no result-count parameter for this operation. -/
theorem claim_C10_quick_lunch_truncation (all_restaurants : List RestaurantResponse)
    (maxd : ℚ) :
    (get_quick_lunch_recommendations all_restaurants maxd).length ≤ 8 ∧
    (get_quick_lunch_recommendations all_restaurants maxd).length =
      min 8 (all_restaurants.filter (quickLunchEligible maxd)).length := by
  rw [quick_lunch_eq_take_sort]
  exact ⟨List.length_take_le 8 _, by rw [List.length_take, length_sortByDesc]⟩

/-! ### Claim C8 -/

theorem backfillStudents_eq (existing_ids : List Int) (l : List RestaurantResponse) :
    ∀ n : ℕ, 1 ≤ n →
      backfillStudents existing_ids n l =
        (l.filter fun rr => !(existing_ids.contains rr.restaurant.id)).take n := by
  induction l with
  | nil =>
    intro n hn
    simp [backfillStudents]
  | cons rr rest ih =>
    intro n hn
    unfold backfillStudents
    cases hmem : existing_ids.contains rr.restaurant.id with
    | true =>
      simp only [hmem, if_true, List.filter_cons, Bool.not_true, if_false]
      rw [ih n hn]
      simp
    | false =>
      have hmem' : rr.restaurant.id ∉ existing_ids := by simpa using hmem
      by_cases h1 : n ≤ 1
      · have hn1 : n = 1 := le_antisymm h1 hn
        subst hn1
        simp [hmem, List.filter_cons, hmem']
      · have h2 : 1 ≤ n - 1 := by omega
        simp only [hmem, if_false, h1, List.filter_cons, Bool.not_false, if_true]
        rw [ih (n - 1) h2, show n = (n - 1) + 1 by omega]
        simp [List.take_succ_cons, hmem']
theorem nodup_ids_personalized (all_restaurants : List RestaurantResponse)
    (pc : List CuisineType) (pp : List PriceRange) (maxd : ℚ) (k : ℕ)
    (h : (all_restaurants.map fun rr => rr.restaurant.id).Nodup) :
    ((get_personalized_recommendations all_restaurants pc pp maxd k).map
      fun rr => rr.restaurant.id).Nodup := by
  rw [get_personalized_eq_sort]
  have hnd : ((sortByDesc (fun rr => personalizedScore rr pc pp maxd) all_restaurants).map
      fun rr => rr.restaurant.id).Nodup :=
    (((sortByDesc_perm _ all_restaurants).map _).nodup_iff).2 h
  exact hnd.sublist ((List.take_sublist k _).map _)

theorem student_friendly_eq (all_restaurants : List RestaurantResponse)
    (h : (all_restaurants.map fun rr => rr.restaurant.id).Nodup) :
    get_student_friendly_recommendations all_restaurants =
      ((get_budget_friendly_recommendations all_restaurants PriceRange.moderate 10).filter
          (fun rr => studentQualifies rr.restaurant)
        ++ (get_budget_friendly_recommendations all_restaurants PriceRange.moderate 10).filter
          (fun rr => !(studentQualifies rr.restaurant))).take 8 := by
  unfold get_student_friendly_recommendations
  set B := get_budget_friendly_recommendations all_restaurants PriceRange.moderate 10 with hB
  have hnodupB : (B.map fun rr => rr.restaurant.id).Nodup := by
    rw [hB]
    unfold get_budget_friendly_recommendations
    exact nodup_ids_personalized all_restaurants _ _ _ _ h
  dsimp only
  by_cases hlen : (B.filter fun rr => studentQualifies rr.restaurant).length < 8
  · rw [if_pos hlen]
    have h1 : 1 ≤ 8 - (B.filter fun rr => studentQualifies rr.restaurant).length := by omega
    rw [backfillStudents_eq _ _ _ h1]
    have hfc : (B.filter fun rr =>
          !(((B.filter fun rr => studentQualifies rr.restaurant).map
              fun rr => rr.restaurant.id).contains rr.restaurant.id))
        = B.filter fun rr => !(studentQualifies rr.restaurant) := by
      apply List.filter_congr
      intro rr hrr
      have hcm : (((B.filter fun rr => studentQualifies rr.restaurant).map
            fun rr => rr.restaurant.id).contains rr.restaurant.id)
          = studentQualifies rr.restaurant := by
        cases hqv : studentQualifies rr.restaurant with
        | true =>
          have hmem : rr.restaurant.id ∈
              (B.filter fun rr => studentQualifies rr.restaurant).map
                fun rr => rr.restaurant.id :=
            List.mem_map.2 ⟨rr, List.mem_filter.2 ⟨hrr, hqv⟩, rfl⟩
          simpa using hmem
        | false =>
          have hnot : rr.restaurant.id ∉
              (B.filter fun rr => studentQualifies rr.restaurant).map
                fun rr => rr.restaurant.id := by
            intro hmem
            rcases List.mem_map.1 hmem with ⟨s, hs, hsid⟩
            have hsB : s ∈ B := (List.mem_filter.1 hs).1
            have hseq : s = rr := List.inj_on_of_nodup_map hnodupB hsB hrr hsid
            have hqr : studentQualifies rr.restaurant = true := by
              rw [← hseq]
              exact (List.mem_filter.1 hs).2
            rw [hqv] at hqr
            exact Bool.false_ne_true hqr
          simpa using hnot
      rw [hcm]
    rw [hfc]
    have hle : (B.filter fun rr => studentQualifies rr.restaurant).length ≤ 8 :=
      le_of_lt hlen
    rw [List.take_append_eq_append_take, List.take_append_eq_append_take]
    simp only [List.take_of_length_le hle, List.take_take, min_self]
  · rw [if_neg hlen]
    push_neg at hlen
    rw [List.take_append_eq_append_take,
      show 8 - (B.filter fun rr => studentQualifies rr.restaurant).length = 0 by omega,
      List.take_zero, List.append_nil]

/-- C8: under the catalog invariant of unique item ids, student_friendly
returns at most 8 items with no duplicate ids, and its value is the first 8
of (qualifying items of the 10-item budget list, in order) followed by (the
non-qualifying remainder, in order): every emitted qualifying item precedes
every backfilled item and the backfill keeps the budget list's order. -/
theorem claim_C8_student_friendly (all_restaurants : List RestaurantResponse)
    (h : (all_restaurants.map fun rr => rr.restaurant.id).Nodup) :
    (get_student_friendly_recommendations all_restaurants).length ≤ 8 ∧
    ((get_student_friendly_recommendations all_restaurants).map
      fun rr => rr.restaurant.id).Nodup ∧
    get_student_friendly_recommendations all_restaurants =
      ((get_budget_friendly_recommendations all_restaurants PriceRange.moderate 10).filter
          (fun rr => studentQualifies rr.restaurant)
        ++ (get_budget_friendly_recommendations all_restaurants PriceRange.moderate 10).filter
          (fun rr => !(studentQualifies rr.restaurant))).take 8 := by
  have heq := student_friendly_eq all_restaurants h
  refine ⟨?_, ?_, heq⟩
  · rw [heq]
    exact List.length_take_le 8 _
  · rw [heq]
    have hnodupB : ((get_budget_friendly_recommendations all_restaurants PriceRange.moderate
        10).map fun rr => rr.restaurant.id).Nodup := by
      unfold get_budget_friendly_recommendations
      exact nodup_ids_personalized all_restaurants _ _ _ _ h
    have hperm := List.filter_append_perm
      (fun rr => studentQualifies rr.restaurant)
      (get_budget_friendly_recommendations all_restaurants PriceRange.moderate 10)
    have hnd : (((get_budget_friendly_recommendations all_restaurants PriceRange.moderate
          10).filter (fun rr => studentQualifies rr.restaurant)
        ++ (get_budget_friendly_recommendations all_restaurants PriceRange.moderate 10).filter
          (fun rr => !(studentQualifies rr.restaurant))).map
        fun rr => rr.restaurant.id).Nodup :=
      ((hperm.map _).nodup_iff).2 hnodupB
    exact hnd.sublist ((List.take_sublist 8 _).map _)

/-- C8 witness: a concrete two-item catalog with distinct ids satisfies the
unique-id hypothesis, and the theorem's conclusion holds there. -/
theorem claim_C8_witness :
    (duplicateCatalog.map fun rr => rr.restaurant.id).Nodup ∧
    ((get_student_friendly_recommendations duplicateCatalog).length ≤ 8 ∧
      ((get_student_friendly_recommendations duplicateCatalog).map
        fun rr => rr.restaurant.id).Nodup ∧
      get_student_friendly_recommendations duplicateCatalog =
        ((get_budget_friendly_recommendations duplicateCatalog PriceRange.moderate 10).filter
            (fun rr => studentQualifies rr.restaurant)
          ++ (get_budget_friendly_recommendations duplicateCatalog
              PriceRange.moderate 10).filter
            (fun rr => !(studentQualifies rr.restaurant))).take 8) :=
  ⟨by decide, claim_C8_student_friendly duplicateCatalog (by decide)⟩

/-! ### Evaluation lemmas for the similarity engine -/

theorem idf_of_full_df (docs : List (List String)) (t : String) (k : ℕ)
    (hn : docs.length = k) (hk : (docs.filter fun d => d.contains t).length = k) :
    idf docs t = 1 := by
  unfold idf
  rw [hn, hk, div_self (by positivity), Real.log_one]
  ring

theorem sqrt_four : Real.sqrt 4 = 2 := by
  rw [show (4 : ℝ) = 2 ^ 2 by norm_num, Real.sqrt_sq (by norm_num)]

theorem l2normalize_ones : l2normalize [1, 1, 1, 1] = [1 / 2, 1 / 2, 1 / 2, 1 / 2] := by
  unfold l2normalize
  rw [show dotList [1, 1, 1, 1] [1, 1, 1, 1] = 4 by norm_num [dotList]]
  rw [sqrt_four]
  norm_num

theorem tfidfRow_dup : tfidfRow [dTok, dTok] dTok = [1 / 2, 1 / 2, 1 / 2, 1 / 2] := by
  unfold tfidfRow
  rw [show vocabulary [dTok, dTok] = dTok by decide]
  have h1 : idf [dTok, dTok] "chinese" = 1 := idf_of_full_df _ _ 2 (by decide) (by decide)
  have h2 : idf [dTok, dTok] "tasty" = 1 := idf_of_full_df _ _ 2 (by decide) (by decide)
  have h3 : idf [dTok, dTok] "dumplings" = 1 := idf_of_full_df _ _ 2 (by decide) (by decide)
  have h4 : idf [dTok, dTok] "carlton" = 1 := idf_of_full_df _ _ 2 (by decide) (by decide)
  have hc1 : dTok.count "chinese" = 1 := by decide
  have hc2 : dTok.count "tasty" = 1 := by decide
  have hc3 : dTok.count "dumplings" = 1 := by decide
  have hc4 : dTok.count "carlton" = 1 := by decide
  have hmap : dTok.map (fun t => ((dTok.count t : ℝ) * idf [dTok, dTok] t)) =
      [(dTok.count "chinese" : ℝ) * idf [dTok, dTok] "chinese",
       (dTok.count "tasty" : ℝ) * idf [dTok, dTok] "tasty",
       (dTok.count "dumplings" : ℝ) * idf [dTok, dTok] "dumplings",
       (dTok.count "carlton" : ℝ) * idf [dTok, dTok] "carlton"] := rfl
  rw [hmap, hc1, hc2, hc3, hc4, h1, h2, h3, h4]
  norm_num
  exact l2normalize_ones

theorem tfidfRow_single : tfidfRow [dTok] dTok = [1 / 2, 1 / 2, 1 / 2, 1 / 2] := by
  unfold tfidfRow
  rw [show vocabulary [dTok] = dTok by decide]
  have h1 : idf [dTok] "chinese" = 1 := idf_of_full_df _ _ 1 (by decide) (by decide)
  have h2 : idf [dTok] "tasty" = 1 := idf_of_full_df _ _ 1 (by decide) (by decide)
  have h3 : idf [dTok] "dumplings" = 1 := idf_of_full_df _ _ 1 (by decide) (by decide)
  have h4 : idf [dTok] "carlton" = 1 := idf_of_full_df _ _ 1 (by decide) (by decide)
  have hc1 : dTok.count "chinese" = 1 := by decide
  have hc2 : dTok.count "tasty" = 1 := by decide
  have hc3 : dTok.count "dumplings" = 1 := by decide
  have hc4 : dTok.count "carlton" = 1 := by decide
  have hmap : dTok.map (fun t => ((dTok.count t : ℝ) * idf [dTok] t)) =
      [(dTok.count "chinese" : ℝ) * idf [dTok] "chinese",
       (dTok.count "tasty" : ℝ) * idf [dTok] "tasty",
       (dTok.count "dumplings" : ℝ) * idf [dTok] "dumplings",
       (dTok.count "carlton" : ℝ) * idf [dTok] "carlton"] := rfl
  rw [hmap, hc1, hc2, hc3, hc4, h1, h2, h3, h4]
  norm_num
  exact l2normalize_ones

theorem dot_half :
    dotList [1 / 2, 1 / 2, 1 / 2, 1 / 2] [1 / 2, 1 / 2, 1 / 2, 1 / 2] = 1 := by
  norm_num [dotList]

theorem l2normalize_half :
    l2normalize [1 / 2, 1 / 2, 1 / 2, 1 / 2] = [1 / 2, 1 / 2, 1 / 2, 1 / 2] := by
  unfold l2normalize
  rw [dot_half, Real.sqrt_one]
  norm_num

theorem dot_l2n_half :
    dotList (l2normalize [1 / 2, 1 / 2, 1 / 2, 1 / 2])
      (l2normalize [1 / 2, 1 / 2, 1 / 2, 1 / 2]) = 1 := by
  rw [l2normalize_half]
  exact dot_half

theorem dotList_self_nonneg (v : List ℝ) : 0 ≤ dotList v v := by
  induction v with
  | nil => simp [dotList]
  | cons x xs ih =>
    simp only [dotList]
    exact add_nonneg (mul_self_nonneg x) ih

theorem dotList_map_div (v : List ℝ) (c : ℝ) :
    dotList (v.map fun x => x / c) (v.map fun x => x / c) = dotList v v / c ^ 2 := by
  induction v with
  | nil => simp [dotList]
  | cons x xs ih =>
    simp only [List.map_cons, dotList, ih]
    ring

/-- A vector of nonzero norm has cosine self-similarity exactly 1. -/
theorem dotList_l2normalize_self (v : List ℝ) (h : dotList v v ≠ 0) :
    dotList (l2normalize v) (l2normalize v) = 1 := by
  have hnn := dotList_self_nonneg v
  have hpos : 0 < dotList v v := lt_of_le_of_ne hnn (Ne.symm h)
  have hs : Real.sqrt (dotList v v) ≠ 0 := (Real.sqrt_pos.2 hpos).ne'
  unfold l2normalize
  rw [if_neg hs, dotList_map_div, Real.sq_sqrt hnn]
  exact div_self h

theorem pair_mean (x : ℝ) : listMean [x, x] = x := by
  simp [listMean]

theorem pair_std_zero (x : ℝ) : (x - listMean [x, x]) / scaleOf [x, x] = 0 := by
  have hv : listVariance [x, x] = 0 := by
    simp [listVariance, pair_mean]
  simp [scaleOf, hv, Real.sqrt_zero, pair_mean]

theorem standardScale_pair_same (v : List ℝ) :
    standardScale [v, v] = [List.replicate v.length 0, List.replicate v.length 0] := by
  unfold standardScale columnOf
  simp only [List.map_cons, List.map_nil]
  have h : (List.range v.length).map
      (fun j => (v.getD j 0 - listMean [v.getD j 0, v.getD j 0]) /
        scaleOf [v.getD j 0, v.getD j 0]) =
      List.replicate v.length 0 := by
    rw [List.eq_replicate_iff]
    refine ⟨by simp, ?_⟩
    intro b hb
    rcases List.mem_map.1 hb with ⟨j, _, rfl⟩
    exact pair_std_zero _
  rw [h]

theorem dotList_zero_left (n : ℕ) (l : List ℝ) : dotList (List.replicate n 0) l = 0 := by
  induction n generalizing l with
  | zero => simp [dotList]
  | succ m ih =>
    cases l with
    | nil => simp [dotList]
    | cons y ys => simp [List.replicate, dotList, ih]

theorem l2normalize_replicate_zero (n : ℕ) :
    l2normalize (List.replicate n 0) = List.replicate n 0 := by
  unfold l2normalize
  rw [dotList_zero_left, Real.sqrt_zero, if_pos rfl]

theorem textRows_dup :
    textRows [plainRestaurant 1 4, plainRestaurant 2 4] =
      [[1 / 2, 1 / 2, 1 / 2, 1 / 2], [1 / 2, 1 / 2, 1 / 2, 1 / 2]] := by
  unfold textRows
  rw [show ([plainRestaurant 1 4, plainRestaurant 2 4].map fun r => tokenize (text_features r))
      = [dTok, dTok] by decide]
  simp only [List.map_cons, List.map_nil, tfidfRow_dup]

theorem numericRows_dup :
    numericRows [plainRestaurant 1 4, plainRestaurant 2 4] =
      [List.replicate 10 0, List.replicate 10 0] := by
  unfold numericRows
  have hmap : ([plainRestaurant 1 4, plainRestaurant 2 4].map fun r =>
        (numericFeatures r).map (Rat.cast : ℚ → ℝ))
      = [[2, 4, 0, 0, 0, 0, 0, 0, 0, 0], [2, 4, 0, 0, 0, 0, 0, 0, 0, 0]] := by
    norm_num [numericFeatures, plainRestaurant, price_numeric]
  rw [hmap, standardScale_pair_same]
  norm_num

/-- Both entries of the second row of the duplicate catalog's similarity
matrix equal 0.6: a perfect text match contributes 0.6 · 1 and the
all-zero standardized numeric rows contribute 0.4 · 0. -/
theorem similarity_dup (i j : ℕ) (hi : i < 2) (hj : j < 2) :
    calculate_similarity_matrix [plainRestaurant 1 4, plainRestaurant 2 4] i j = 0.6 := by
  unfold calculate_similarity_matrix cosineSimilarity
  rw [textRows_dup, numericRows_dup]
  interval_cases i <;> interval_cases j <;>
    (simp only [List.getD_cons_zero, List.getD_cons_succ]
     rw [dot_l2n_half, l2normalize_replicate_zero, dotList_zero_left]
     norm_num)

theorem textRows_single : textRows singleRestaurantList = [[1 / 2, 1 / 2, 1 / 2, 1 / 2]] := by
  unfold textRows singleRestaurantList
  rw [show ([plainRestaurant 1 4].map fun r => tokenize (text_features r)) = [dTok] by decide]
  simp only [List.map_cons, List.map_nil, tfidfRow_single]

theorem single_mean (x : ℝ) : listMean [x] = x := by
  simp [listMean]

theorem single_std_zero (x : ℝ) : (x - listMean [x]) / scaleOf [x] = 0 := by
  have hv : listVariance [x] = 0 := by
    simp [listVariance, single_mean]
  simp [scaleOf, hv, Real.sqrt_zero, single_mean]

theorem standardScale_single (v : List ℝ) :
    standardScale [v] = [List.replicate v.length 0] := by
  unfold standardScale columnOf
  simp only [List.map_cons, List.map_nil]
  have h : (List.range v.length).map
      (fun j => (v.getD j 0 - listMean [v.getD j 0]) / scaleOf [v.getD j 0]) =
      List.replicate v.length 0 := by
    rw [List.eq_replicate_iff]
    refine ⟨by simp, ?_⟩
    intro b hb
    rcases List.mem_map.1 hb with ⟨j, _, rfl⟩
    exact single_std_zero _
  rw [h]

theorem numericRows_single : numericRows singleRestaurantList = [List.replicate 10 0] := by
  unfold numericRows singleRestaurantList
  have hmap : ([plainRestaurant 1 4].map fun r => (numericFeatures r).map (Rat.cast : ℚ → ℝ))
      = [[2, 4, 0, 0, 0, 0, 0, 0, 0, 0]] := by
    norm_num [numericFeatures, plainRestaurant, price_numeric]
  rw [hmap, standardScale_single]
  norm_num

theorem textRows_tworatings :
    textRows twoRatingsList = [[1 / 2, 1 / 2, 1 / 2, 1 / 2], [1 / 2, 1 / 2, 1 / 2, 1 / 2]] := by
  unfold textRows twoRatingsList
  rw [show ([plainRestaurant 1 4, plainRestaurant 2 5].map fun r => tokenize (text_features r))
      = [dTok, dTok] by decide]
  simp only [List.map_cons, List.map_nil, tfidfRow_dup]

theorem sqrt_quarter : Real.sqrt (1 / 4) = 1 / 2 := by
  rw [show (1 / 4 : ℝ) = (1 / 2) ^ 2 by norm_num, Real.sqrt_sq (by norm_num)]

theorem mean45 : listMean [4, 5] = 9 / 2 := by
  simp [listMean]
  norm_num

theorem scale45 : scaleOf [4, 5] = 1 / 2 := by
  have hv : listVariance [4, 5] = 1 / 4 := by
    simp [listVariance, mean45]
    norm_num
  rw [scaleOf, hv, sqrt_quarter]
  norm_num

theorem numericRows_tworatings :
    numericRows twoRatingsList =
      [[0, -1, 0, 0, 0, 0, 0, 0, 0, 0], [0, 1, 0, 0, 0, 0, 0, 0, 0, 0]] := by
  unfold numericRows twoRatingsList
  have hmap : ([plainRestaurant 1 4, plainRestaurant 2 5].map fun r =>
        (numericFeatures r).map (Rat.cast : ℚ → ℝ))
      = [[2, 4, 0, 0, 0, 0, 0, 0, 0, 0], [2, 5, 0, 0, 0, 0, 0, 0, 0, 0]] := by
    norm_num [numericFeatures, plainRestaurant, price_numeric]
  rw [hmap]
  unfold standardScale columnOf
  simp only [List.map_cons, List.map_nil, List.length_cons, List.length_nil]
  rw [show List.range 10 = [0, 1, 2, 3, 4, 5, 6, 7, 8, 9] from rfl]
  simp only [List.map_cons, List.map_nil, List.getD_cons_zero, List.getD_cons_succ]
  simp only [pair_std_zero]
  rw [mean45, scale45]
  norm_num

/-! ### Claim C2 -/

/-- C2: for a non-empty catalog, every in-range entry of the combined
similarity matrix is exactly `0.6 * T + 0.4 * N`, where `T` is the pairwise
cosine similarity of the TF-IDF vectors of the items' text features
(category, description and location joined by whitespace; English stop words
removed) and `N` is the pairwise cosine similarity of the column-standardized
numeric feature vectors (price tier 1..4, rating, eight 0/1 amenity
flags). -/
theorem claim_C2_similarity_combination (restaurants : List Restaurant) (i j : ℕ)
    (_hne : restaurants ≠ []) (_hi : i < restaurants.length)
    (_hj : j < restaurants.length) :
    calculate_similarity_matrix restaurants i j =
      0.6 * Tmatrix restaurants i j + 0.4 * Nmatrix restaurants i j := rfl

/-- C2 witness: the combination identity at a concrete one-item catalog. -/
theorem claim_C2_witness :
    (singleRestaurantList ≠ [] ∧ 0 < singleRestaurantList.length) ∧
    calculate_similarity_matrix singleRestaurantList 0 0 =
      0.6 * Tmatrix singleRestaurantList 0 0 + 0.4 * Nmatrix singleRestaurantList 0 0 :=
  ⟨⟨by decide, by decide⟩,
    claim_C2_similarity_combination singleRestaurantList 0 0 (by decide) (by decide)
      (by decide)⟩

/-! ### Claim C3 -/

/-- C3 is violated by the code on the similarity lookup: on an empty catalog
`_setup_recommendation_engine` returns early and never assigns
`self.restaurant_df`, so `get_similar_restaurants` raises `AttributeError`
at its `self.restaurant_df.empty` guard instead of returning `[]`; the other
six public operations do return the empty list. -/
theorem claim_C3_code_bug :
    get_similar_restaurants (mkRecommendationService []) 1 5 =
      Except.error PyError.attributeError ∧
    get_personalized_recommendations [] allCuisines allPriceRanges 10 10 = [] ∧
    get_trending_restaurants [] 6 = [] ∧
    get_budget_friendly_recommendations [] PriceRange.moderate 8 = [] ∧
    get_cuisine_recommendations [] CuisineType.chinese 5 = [] ∧
    get_quick_lunch_recommendations [] 2 = [] ∧
    get_student_friendly_recommendations [] = [] :=
  ⟨rfl, rfl, rfl, rfl, rfl, rfl, rfl⟩

/-! ### Claim C4 -/

/-- C4 is violated by the code when similarity scores tie: with two fully
identical restaurants (ids 1 and 2) every similarity entry of row 1 equals
0.6, the stable descending sort keeps index 0 before index 1, and the
`[1:num+1]` slice meant to "exclude self" returns the queried restaurant
(id 2) itself. -/
theorem claim_C4_code_bug :
    get_similar_restaurants (mkRecommendationService duplicateCatalog) 2 1 =
      Except.ok [plainResponse (plainRestaurant 2 4)] := by
  have hS10 := similarity_dup 1 0 (by norm_num) (by norm_num)
  have hS11 := similarity_dup 1 1 (by norm_num) (by norm_num)
  have hmk : mkRecommendationService duplicateCatalog =
      ⟨duplicateCatalog, some [plainRestaurant 1 4, plainRestaurant 2 4]⟩ := rfl
  rw [hmk]
  simp only [get_similar_restaurants]
  refine congrArg Except.ok ?_
  unfold similar_from_df
  rw [if_neg (by decide : ¬([plainRestaurant 1 4, plainRestaurant 2 4] = []))]
  rw [show List.findIdx? (fun r => decide (r.id = 2)) [plainRestaurant 1 4, plainRestaurant 2 4]
      = some 1 by decide]
  simp only [List.length_cons, List.length_nil]
  rw [show List.range 2 = [0, 1] from rfl]
  simp only [List.map_cons, List.map_nil]
  rw [hS10, hS11]
  simp only [sortByDesc, insortBy]
  rw [if_pos (le_refl (0.6 : ℝ))]
  simp only [List.drop_succ_cons, List.drop_nil, List.take_succ_cons, List.take_nil,
    List.map_cons, List.map_nil, List.getD_cons_succ, List.getD_cons_zero]
  decide

/-! ### Claim C6 -/

/-- C6 as frozen is refuted by a one-item catalog: standardizing the single
numeric row yields the zero vector, whose cosine self-similarity is 0 under
sklearn's zero-norm convention, so the diagonal entry is 0.6 · 1 + 0.4 · 0 =
0.6, not 1.0. -/
theorem claim_C6_counterexample :
    calculate_similarity_matrix singleRestaurantList 0 0 = 0.6 ∧
    calculate_similarity_matrix singleRestaurantList 0 0 ≠ 1 := by
  have h : calculate_similarity_matrix singleRestaurantList 0 0 = 0.6 := by
    unfold calculate_similarity_matrix cosineSimilarity
    rw [textRows_single, numericRows_single]
    simp only [List.getD_cons_zero]
    rw [dot_l2n_half, l2normalize_replicate_zero, dotList_zero_left]
    norm_num
  refine ⟨h, ?_⟩
  rw [h]
  norm_num

/-- C6 amended: a diagonal entry of the combined similarity matrix equals
1.0 exactly when both the item's stored TF-IDF row and its standardized
numeric row are nonzero (nonzero self-dot); a zero row (e.g. the
standardized numeric vector of a single-item catalog, or of any catalog in
which that item's features sit at every column mean) loses its 0.6 or 0.4
share. -/
theorem claim_C6_amended (restaurants : List Restaurant) (i : ℕ)
    (ht : dotList ((textRows restaurants).getD i []) ((textRows restaurants).getD i []) ≠ 0)
    (hn : dotList ((numericRows restaurants).getD i [])
      ((numericRows restaurants).getD i []) ≠ 0) :
    calculate_similarity_matrix restaurants i i = 1 := by
  unfold calculate_similarity_matrix cosineSimilarity
  rw [dotList_l2normalize_self _ ht, dotList_l2normalize_self _ hn]
  norm_num

/-- C6 amended, witness: a two-item catalog with identical texts and ratings
4 and 5 has nonzero TF-IDF and standardized numeric rows for item 0, and its
diagonal entry is 1. -/
theorem claim_C6_amended_witness :
    (dotList ((textRows twoRatingsList).getD 0 [])
        ((textRows twoRatingsList).getD 0 []) ≠ 0 ∧
      dotList ((numericRows twoRatingsList).getD 0 [])
        ((numericRows twoRatingsList).getD 0 []) ≠ 0) ∧
    calculate_similarity_matrix twoRatingsList 0 0 = 1 := by
  have ht : dotList ((textRows twoRatingsList).getD 0 [])
      ((textRows twoRatingsList).getD 0 []) ≠ 0 := by
    rw [textRows_tworatings]
    simp only [List.getD_cons_zero]
    rw [dot_half]
    exact one_ne_zero
  have hn : dotList ((numericRows twoRatingsList).getD 0 [])
      ((numericRows twoRatingsList).getD 0 []) ≠ 0 := by
    rw [numericRows_tworatings]
    simp only [List.getD_cons_zero]
    norm_num [dotList]
  exact ⟨⟨ht, hn⟩, claim_C6_amended twoRatingsList 0 ht hn⟩

end MelbourneFood
